import Mathlib

/-!
Shallow embedding of `drivers/net/wireless/orinoco/spectrum_cs.c` — the PCMCIA
attachment and firmware-reset control layer for Symbol Spectrum24 cards — and
proofs about its reset sequencer, CIS configuration scanner, attachment
lifecycle controller and release path.

Register values are modelled as `Nat` (the C code manipulates 8-bit register
contents held in `u_int` variables); bit operations use `&&&`, `|||` with the
32-bit complement written out explicitly where the C code applies `~` on
`u_int`.  External bus services (register access, I/O reservation, IRQ and
configuration requests, the radio-driver collaborator) are oracles supplied in
an environment record; every definition is executable.
-/

/-! ## Constants -/

/-- Linux errno `ENODEV` (the driver returns `-ENODEV`). -/
def ENODEV : Int := 19

/-- Constant from spectrum_cs.c: run firmware after reset (`HCR_RUN`). -/
def HCR_RUN : Nat := 0x07

/-- Constant from spectrum_cs.c: do not run firmware after reset (`HCR_IDLE`). -/
def HCR_IDLE : Nat := 0x0E

/-- Constant from spectrum_cs.c: memory width bit of CCSR, to be preserved. -/
def HCR_MEM16 : Nat := 0x10

/-- Constant from pcmcia/cisreg.h: soft reset bit of the COR register. -/
def COR_SOFT_RESET : Nat := 0x80

/-- Value of `~COR_SOFT_RESET` computed on the 32-bit `u_int` used by the
driver (`save_cor & ~COR_SOFT_RESET`). -/
def UINT_NOT_COR_SOFT_RESET : Nat := 0xFFFFFF7F

/-- Symbolic code of the `AccessConfigurationRegister` card-services function,
recorded as `last_fn` by the `CS_CHECK` macro and handed to `cs_error`. -/
def AccessConfigurationRegister : Nat := 0xAC

/-! ## Reset sequencer (`spectrum_reset`) -/

/-- One attempted configuration-register access, as issued by
`pcmcia_access_configuration_register` in `spectrum_reset`. -/
inductive RegAccess where
  | readCOR : RegAccess
  | writeCOR (v : Nat) : RegAccess
  | readCCSR : RegAccess
  | writeCCSR (v : Nat) : RegAccess
deriving DecidableEq

/-- Contents of the two configuration registers touched by `spectrum_reset`. -/
structure CardRegs where
  cor : Nat
  ccsr : Nat
deriving DecidableEq

/-- Environment of one `spectrum_reset` invocation: presence of the device,
the register contents at entry, the CCSR contents that the soft-reset pulse
leaves behind (the hardware may change CCSR across the pulse, which is why the
driver re-reads it), and the bus status of the k-th register access
(0 = success), modelling failures of
`pcmcia_access_configuration_register`. -/
structure ResetEnv where
  present : Bool
  cor0 : Nat
  ccsr0 : Nat
  resetCcsr : Nat
  busErr : Nat → Int

/-- Observable outcome of `spectrum_reset`: the returned value, the final
register contents, the trace of attempted register accesses, and the
arguments `(last_fn, last_ret)` passed to `cs_error` (none when `cs_error`
was not called). -/
structure ResetResult where
  ret : Int
  regs : CardRegs
  accesses : List RegAccess
  csErr : Option (Nat × Int)
deriving DecidableEq

/-- Hardware effect of writing value `v` to COR: the register takes the
value, and when the written value carries the soft-reset bit the reset pulse
also re-latches CCSR (its post-pulse contents are `env.resetCcsr`). -/
def writeCORfx (env : ResetEnv) (regs : CardRegs) (v : Nat) : CardRegs :=
  { cor := v
    ccsr := if v &&& COR_SOFT_RESET ≠ 0 then env.resetCcsr else regs.ccsr }

/-- Embedding of `spectrum_reset(link, idle)`. The five
`pcmcia_access_configuration_register` calls are numbered 1..5; a nonzero
`busErr k` makes the k-th access fail, reproducing the `CS_CHECK` jump to
`cs_failed` (which calls `cs_error(link, last_fn, last_ret)` and returns
`-ENODEV`).  A failed access leaves the registers unchanged.  `udelay`
settling has no observable effect in this state model. -/
def spectrum_reset (env : ResetEnv) (idle : Bool) : ResetResult :=
  let regs0 : CardRegs := { cor := env.cor0, ccsr := env.ccsr0 }
  -- if (!pcmcia_dev_present(link)) return -ENODEV;
  if env.present = false then
    { ret := -ENODEV, regs := regs0, accesses := [], csErr := none }
  else
  -- access 1: read COR, save its value
  if env.busErr 1 ≠ 0 then
    { ret := -ENODEV, regs := regs0, accesses := [RegAccess.readCOR]
      csErr := some (AccessConfigurationRegister, env.busErr 1) }
  else
  let save_cor := regs0.cor
  -- access 2: write COR with the soft-reset bit set
  let v2 := save_cor ||| COR_SOFT_RESET
  if env.busErr 2 ≠ 0 then
    { ret := -ENODEV, regs := regs0
      accesses := [RegAccess.readCOR, RegAccess.writeCOR v2]
      csErr := some (AccessConfigurationRegister, env.busErr 2) }
  else
  let regs2 := writeCORfx env regs0 v2
  -- access 3: read CCSR (after the soft-reset pulse)
  if env.busErr 3 ≠ 0 then
    { ret := -ENODEV, regs := regs2
      accesses := [RegAccess.readCOR, RegAccess.writeCOR v2, RegAccess.readCCSR]
      csErr := some (AccessConfigurationRegister, env.busErr 3) }
  else
  let ccsr_read := regs2.ccsr
  -- access 4: write CCSR with idle/run encoding, preserving the memory width bit
  let v4 := (if idle then HCR_IDLE else HCR_RUN) ||| (ccsr_read &&& HCR_MEM16)
  if env.busErr 4 ≠ 0 then
    { ret := -ENODEV, regs := regs2
      accesses := [RegAccess.readCOR, RegAccess.writeCOR v2, RegAccess.readCCSR,
                   RegAccess.writeCCSR v4]
      csErr := some (AccessConfigurationRegister, env.busErr 4) }
  else
  let regs4 := { regs2 with ccsr := v4 }
  -- access 5: restore COR with the soft-reset bit cleared
  let v5 := save_cor &&& UINT_NOT_COR_SOFT_RESET
  if env.busErr 5 ≠ 0 then
    { ret := -ENODEV, regs := regs4
      accesses := [RegAccess.readCOR, RegAccess.writeCOR v2, RegAccess.readCCSR,
                   RegAccess.writeCCSR v4, RegAccess.writeCOR v5]
      csErr := some (AccessConfigurationRegister, env.busErr 5) }
  else
  { ret := 0, regs := writeCORfx env regs4 v5
    accesses := [RegAccess.readCOR, RegAccess.writeCOR v2, RegAccess.readCCSR,
                 RegAccess.writeCCSR v4, RegAccess.writeCOR v5]
    csErr := none }

/-- Embedding of `spectrum_cs_hard_reset`: calls `spectrum_reset(link, 0)`,
discards its return value, and returns 0. -/
def spectrum_cs_hard_reset (env : ResetEnv) : Int × ResetResult :=
  (0, spectrum_reset env false)

/-! ## CIS configuration scanner (`spectrum_cs_config_check`) -/

/-- Constant from pcmcia/cistpl.h: index of the nominal-voltage parameter in a
power tuple. -/
def CISTPL_POWER_VNOM : Nat := 0

/-- Constant from pcmcia/cistpl.h: mask of the address-lines field of the flags
of an I/O tuple. -/
def CISTPL_IO_LINES_MASK : Nat := 0x1f

/-- Constant from pcmcia/cistpl.h: the I/O window supports 8-bit access. -/
def CISTPL_IO_8BIT : Nat := 0x20

/-- Constant from pcmcia/cistpl.h: the I/O window supports 16-bit access. -/
def CISTPL_IO_16BIT : Nat := 0x40

/-- Constant from pcmcia/cs.h: force 8-bit I/O data path. -/
def IO_DATA_PATH_WIDTH_8 : Nat := 0x00

/-- Constant from pcmcia/cs.h: force 16-bit I/O data path. -/
def IO_DATA_PATH_WIDTH_16 : Nat := 0x08

/-- Constant from pcmcia/cs.h: auto-detect I/O data path width. -/
def IO_DATA_PATH_WIDTH_AUTO : Nat := 0x10

/-- Constant from pcmcia/cs.h: enable-IRQ attribute of the socket
configuration. -/
def CONF_ENABLE_IRQ : Nat := 0x01

/-- Power descriptor of a CIS configuration table entry
(`cistpl_power_t`): a present-flag bitmask and the parameter array. -/
structure cistpl_power_t where
  present : Nat
  param : Nat → Nat

/-- One I/O window of a CIS I/O descriptor: base address and length. -/
structure io_window where
  base : Nat
  len : Nat

/-- I/O descriptor of a CIS configuration table entry (`cistpl_io_t`):
capability flags, number of declared windows, and the window array. -/
structure cistpl_io_t where
  flags : Nat
  nwin : Nat
  win : Nat → io_window

/-- Parsed CIS configuration table entry (`cistpl_cftable_entry_t`),
restricted to the fields read by `spectrum_cs_config_check`. -/
structure cistpl_cftable_entry_t where
  index : Nat
  vcc : cistpl_power_t
  vpp1 : cistpl_power_t
  io : cistpl_io_t

/-- Socket configuration fields of the device written by the scanner
(`p_dev->conf`). -/
structure pcmcia_conf where
  Vpp : Nat
  Attributes : Nat
deriving DecidableEq

/-- I/O request fields of the device written by the scanner (`p_dev->io`). -/
structure pcmcia_io_req where
  Attributes1 : Nat
  Attributes2 : Nat
  BasePort1 : Nat
  NumPorts1 : Nat
  BasePort2 : Nat
  NumPorts2 : Nat
  IOAddrLines : Nat
deriving DecidableEq

/-- Device state mutated by the scanner: the shared configuration and I/O
request fields, plus a count of `pcmcia_disable_device` calls. -/
structure pcmcia_device_t where
  conf : pcmcia_conf
  io : pcmcia_io_req
  disable_calls : Nat
deriving DecidableEq

/-- External bus call `pcmcia_disable_device(p_dev)`: releases bus-side
reservations; it does not touch the `conf`/`io` fields the scanner wrote. -/
def pcmcia_disable_device (p : pcmcia_device_t) : pcmcia_device_t :=
  { p with disable_calls := p.disable_calls + 1 }

/-- The voltage-check branch of `spectrum_cs_config_check`: true exactly when
the entry is sent to `next_entry` by the Vcc comparison.  The nominal voltage
declared by the candidate is used when present, else the one declared by the
default entry; a
mismatch (after dividing the CIS value by 10000) rejects only when
`ignore_cis_vcc` is unset. -/
def vcc_mismatch_reject (ignore_cis_vcc : Bool) (vcc : Nat)
    (cfg dflt : cistpl_cftable_entry_t) : Bool :=
  if (cfg.vcc.present &&& (1 <<< CISTPL_POWER_VNOM)) ≠ 0 then
    decide (vcc ≠ cfg.vcc.param CISTPL_POWER_VNOM / 10000) && !ignore_cis_vcc
  else if (dflt.vcc.present &&& (1 <<< CISTPL_POWER_VNOM)) ≠ 0 then
    decide (vcc ≠ dflt.vcc.param CISTPL_POWER_VNOM / 10000) && !ignore_cis_vcc
  else false

/-- The I/O descriptor picked by `spectrum_cs_config_check`:
`io = (cfg->io.nwin) ? &cfg->io : &dflt->io`. -/
def chosen_io (cfg dflt : cistpl_cftable_entry_t) : cistpl_io_t :=
  if cfg.io.nwin ≠ 0 then cfg.io else dflt.io

/-- Tail of `spectrum_cs_config_check` after the index and Vcc checks: the
Vpp write, the interrupt-enable attribute, the I/O window derivation and the
`pcmcia_request_io` attempt (modelled by the oracle `request_io`, 0 =
success). -/
def spectrum_cs_config_check_rest (request_io : pcmcia_io_req → Int)
    (cfg dflt : cistpl_cftable_entry_t) (p0 : pcmcia_device_t) :
    Int × pcmcia_device_t :=
  -- Vpp from the entry if present, else from the default entry
  let p1 :=
    if (cfg.vpp1.present &&& (1 <<< CISTPL_POWER_VNOM)) ≠ 0 then
      { p0 with conf := { p0.conf with Vpp := cfg.vpp1.param CISTPL_POWER_VNOM / 10000 } }
    else if (dflt.vpp1.present &&& (1 <<< CISTPL_POWER_VNOM)) ≠ 0 then
      { p0 with conf := { p0.conf with Vpp := dflt.vpp1.param CISTPL_POWER_VNOM / 10000 } }
    else p0
  -- p_dev->conf.Attributes |= CONF_ENABLE_IRQ;
  let p2 := { p1 with conf := { p1.conf with
                Attributes := p1.conf.Attributes ||| CONF_ENABLE_IRQ } }
  -- p_dev->io.NumPorts1 = p_dev->io.NumPorts2 = 0;
  let p3 := { p2 with io := { p2.io with NumPorts1 := 0, NumPorts2 := 0 } }
  if cfg.io.nwin > 0 ∨ dflt.io.nwin > 0 then
    let iot := chosen_io cfg dflt
    let a1 := IO_DATA_PATH_WIDTH_AUTO
    let a1 := if iot.flags &&& CISTPL_IO_8BIT = 0 then IO_DATA_PATH_WIDTH_16 else a1
    let a1 := if iot.flags &&& CISTPL_IO_16BIT = 0 then IO_DATA_PATH_WIDTH_8 else a1
    let p4 := { p3 with io := { p3.io with
                  Attributes1 := a1
                  IOAddrLines := iot.flags &&& CISTPL_IO_LINES_MASK
                  BasePort1 := (iot.win 0).base
                  NumPorts1 := (iot.win 0).len } }
    let p5 :=
      if iot.nwin > 1 then
        { p4 with io := { p4.io with
            Attributes2 := p4.io.Attributes1
            BasePort2 := (iot.win 1).base
            NumPorts2 := (iot.win 1).len } }
      else p4
    if request_io p5.io ≠ 0 then (-ENODEV, pcmcia_disable_device p5)
    else (0, p5)
  else (0, p3)

/-- Embedding of `spectrum_cs_config_check(p_dev, cfg, dflt, vcc, priv)`:
rejects index-0 entries, applies the Vcc policy, then runs the Vpp/IRQ/I/O
tail.  Every `goto next_entry` path calls `pcmcia_disable_device` and
returns `-ENODEV`. -/
def spectrum_cs_config_check (ignore_cis_vcc : Bool)
    (request_io : pcmcia_io_req → Int) (vcc : Nat)
    (cfg dflt : cistpl_cftable_entry_t) (p_dev : pcmcia_device_t) :
    Int × pcmcia_device_t :=
  if cfg.index = 0 then (-ENODEV, pcmcia_disable_device p_dev)
  else if vcc_mismatch_reject ignore_cis_vcc vcc cfg dflt then
    (-ENODEV, pcmcia_disable_device p_dev)
  else spectrum_cs_config_check_rest request_io cfg dflt p_dev

/-- Model of the external bus iterator `pcmcia_loop_config` applied to
`spectrum_cs_config_check`, per the scanner contract of the spec: the bus
supplies an ordered finite sequence of (candidate, current default) entry
pairs; the first entry on which the check returns 0 is selected and the scan
stops; an exhausted sequence fails with `-ENODEV`.  Returns the final status,
the device state, and the selected entry when one was accepted. -/
def pcmcia_loop_config (ignore_cis_vcc : Bool)
    (request_io : pcmcia_io_req → Int) (vcc : Nat) :
    List (cistpl_cftable_entry_t × cistpl_cftable_entry_t) → pcmcia_device_t →
    Int × pcmcia_device_t × Option cistpl_cftable_entry_t
  | [], p => (-ENODEV, p, none)
  | (cfg, dflt) :: rest, p =>
    let r := spectrum_cs_config_check ignore_cis_vcc request_io vcc cfg dflt p
    if r.1 = 0 then (0, r.2, some cfg)
    else pcmcia_loop_config ignore_cis_vcc request_io vcc rest r.2

/-! ## Release path (`spectrum_cs_release`) -/

/-- Observable state touched by `spectrum_cs_release`: the `hw_unavailable`
counter of the driver context, the recorded register-window pointer
(`priv->hw.iobase`, 0 = not mapped), and counts of the
`pcmcia_disable_device` and `ioport_unmap` calls issued. -/
structure ReleaseState where
  hw_unavailable : Nat
  iobase : Nat
  disable_calls : Nat
  unmap_calls : Nat
deriving DecidableEq

/-- Embedding of `spectrum_cs_release`: increments `hw_unavailable` under the
lock, disables the device at the bus, and unmaps the register window when
`priv->hw.iobase` is nonzero.  The code never clears `iobase`. -/
def spectrum_cs_release (s : ReleaseState) : ReleaseState :=
  let s1 := { s with hw_unavailable := s.hw_unavailable + 1 }
  let s2 := { s1 with disable_calls := s1.disable_calls + 1 }
  if s2.iobase ≠ 0 then { s2 with unmap_calls := s2.unmap_calls + 1 } else s2

/-! ## Attachment configure path (`spectrum_cs_config`) -/

/-- Environment of one `spectrum_cs_config` run: the CIS entries and scanner
inputs, plus oracles for the external calls made along the way
(`pcmcia_request_irq`, `ioport_map`, `pcmcia_request_configuration`,
`orinoco_init`, `orinoco_if_add`; a nonzero Int or a false Bool is a
failure) and the reset environment consumed by `spectrum_cs_hard_reset`. -/
structure ConfigEnv where
  entries : List (cistpl_cftable_entry_t × cistpl_cftable_entry_t)
  vcc : Nat
  ignore_cis_vcc : Bool
  request_io : pcmcia_io_req → Int
  request_irq : Int
  ioport_map_ok : Bool
  request_configuration : Int
  reset_env : ResetEnv
  orinoco_init : Int
  orinoco_if_add : Int

/-- Observable outcome of `spectrum_cs_config`: the returned value, the
device state left by the scan, whether the `failed:` path ran
`spectrum_cs_release`, and whether `link->dev_node` was set (the interface
was registered). -/
structure ConfigResult where
  ret : Int
  pdev : pcmcia_device_t
  release_called : Bool
  dev_node_set : Bool

/-- Embedding of `spectrum_cs_config(link)`: CIS scan, IRQ request, register
window mapping, socket configuration request, hard reset, radio-driver
initialization and interface registration; both the `cs_failed:` and
`failed:` labels fall through to `spectrum_cs_release` and return `-ENODEV`.
The printk/cs_error reporting has no further observable effect and is
elided. -/
def spectrum_cs_config (env : ConfigEnv) (p0 : pcmcia_device_t) : ConfigResult :=
  let lr := pcmcia_loop_config env.ignore_cis_vcc env.request_io env.vcc env.entries p0
  if lr.1 ≠ 0 then
    { ret := -ENODEV, pdev := lr.2.1, release_called := true, dev_node_set := false }
  else if env.request_irq ≠ 0 then
    { ret := -ENODEV, pdev := lr.2.1, release_called := true, dev_node_set := false }
  else if env.ioport_map_ok = false then
    { ret := -ENODEV, pdev := lr.2.1, release_called := true, dev_node_set := false }
  else if env.request_configuration ≠ 0 then
    { ret := -ENODEV, pdev := lr.2.1, release_called := true, dev_node_set := false }
  else
  -- if (spectrum_cs_hard_reset(priv) != 0) goto failed;
  let hr := spectrum_cs_hard_reset env.reset_env
  if hr.1 ≠ 0 then
    { ret := -ENODEV, pdev := lr.2.1, release_called := true, dev_node_set := false }
  else if env.orinoco_init ≠ 0 then
    { ret := -ENODEV, pdev := lr.2.1, release_called := true, dev_node_set := false }
  else if env.orinoco_if_add ≠ 0 then
    { ret := -ENODEV, pdev := lr.2.1, release_called := true, dev_node_set := false }
  else
    { ret := 0, pdev := lr.2.1, release_called := false, dev_node_set := true }

/-! ## Concrete inputs used by witnesses and counterexamples -/

/-- Power descriptor declaring nothing. -/
def pw_none : cistpl_power_t := { present := 0, param := fun _ => 0 }

/-- I/O descriptor declaring no window. -/
def io_none : cistpl_io_t := { flags := 0, nwin := 0, win := fun _ => { base := 0, len := 0 } }

/-- Device state at entry to the scan. -/
def pdev_init : pcmcia_device_t :=
  { conf := { Vpp := 0, Attributes := 0 }
    io := { Attributes1 := 0, Attributes2 := 0, BasePort1 := 0, NumPorts1 := 0,
            BasePort2 := 0, NumPorts2 := 0, IOAddrLines := 0 }
    disable_calls := 0 }

/-- I/O reservation oracle that always succeeds. -/
def rio_ok : pcmcia_io_req → Int := fun _ => 0

/-- Power descriptor declaring a nominal value `v` (in the CIS scale). -/
def pw_decl (v : Nat) : cistpl_power_t := { present := 1, param := fun _ => v }

/-- Default entry declaring nothing. -/
def dflt_none : cistpl_cftable_entry_t :=
  { index := 0, vcc := pw_none, vpp1 := pw_none, io := io_none }

/-- Entry declaring a 3.3V nominal operating voltage and no I/O window. -/
def cfg_vcc33 : cistpl_cftable_entry_t :=
  { index := 1, vcc := pw_decl 33000, vpp1 := pw_none, io := io_none }

/-- Entry with one I/O window whose flags declare neither 8-bit nor 16-bit
capability. -/
def cfg_no_width_flags : cistpl_cftable_entry_t :=
  { index := 1, vcc := pw_none, vpp1 := pw_none
    io := { flags := 0, nwin := 1, win := fun _ => { base := 0x300, len := 16 } } }

/-- Entry with two I/O windows declaring 16-bit capability only. -/
def cfg_16bit_two_win : cistpl_cftable_entry_t :=
  { index := 1, vcc := pw_none, vpp1 := pw_none
    io := { flags := 0x40, nwin := 2
            win := fun i => if i = 0 then { base := 0x300, len := 16 }
                            else { base := 0x320, len := 8 } } }

/-- Entry with index 0 and otherwise unobjectionable fields. -/
def cfg_idx0 : cistpl_cftable_entry_t :=
  { index := 0, vcc := pw_none, vpp1 := pw_none
    io := { flags := 0x40, nwin := 1, win := fun _ => { base := 0x300, len := 16 } } }

/-- Structurally trivial entry declaring nothing (accepted with zero I/O
ports). -/
def cfg_plain : cistpl_cftable_entry_t :=
  { index := 1, vcc := pw_none, vpp1 := pw_none, io := io_none }

/-- Entry declaring Vpp 5V (CIS value 50000) and an I/O window at 0x300. -/
def e1_vpp : cistpl_cftable_entry_t :=
  { index := 1, vcc := pw_none, vpp1 := pw_decl 50000
    io := { flags := 0x40, nwin := 1, win := fun _ => { base := 0x300, len := 16 } } }

/-- Entry declaring no Vpp and an I/O window at 0x320. -/
def e2_novpp : cistpl_cftable_entry_t :=
  { index := 2, vcc := pw_none, vpp1 := pw_none
    io := { flags := 0x40, nwin := 1, win := fun _ => { base := 0x320, len := 16 } } }

/-- I/O reservation oracle that refuses base port 0x300 (range occupied) and
accepts anything else. -/
def rio_fail300 : pcmcia_io_req → Int :=
  fun req => if req.BasePort1 = 0x300 then -12 else 0

/-- Release state of an attachment whose register window is mapped. -/
def rs0 : ReleaseState :=
  { hw_unavailable := 0, iobase := 0x300, disable_calls := 0, unmap_calls := 0 }

/-- Reset environment of a present card with an error-free bus; the CCSR
contents change across the soft-reset pulse (memory-width bit set before,
clear after). -/
def env_reset_ok : ResetEnv :=
  { present := true, cor0 := 0x41, ccsr0 := 0x1F, resetCcsr := 0x07
    busErr := fun _ => 0 }

/-- Reset environment of a present card with an error-free bus whose COR
value carries the soft-reset bit at entry. -/
def env_reset_cor : ResetEnv :=
  { present := true, cor0 := 0xC1, ccsr0 := 0x10, resetCcsr := 0x10
    busErr := fun _ => 0 }

/-- Reset environment of an absent card. -/
def env_absent : ResetEnv :=
  { present := false, cor0 := 0x41, ccsr0 := 0x1F, resetCcsr := 0x07
    busErr := fun _ => 0 }

/-- Reset environment whose first register access fails with bus status -5. -/
def env_fail1 : ResetEnv :=
  { present := true, cor0 := 0x41, ccsr0 := 0x1F, resetCcsr := 0x07
    busErr := fun k => if k = 1 then -5 else 0 }

/-- Reset environment whose second register access fails with bus status -5. -/
def env_fail2 : ResetEnv :=
  { present := true, cor0 := 0x41, ccsr0 := 0x1F, resetCcsr := 0x07
    busErr := fun k => if k = 2 then -5 else 0 }

/-- Reset environment whose third register access fails with bus status -5. -/
def env_fail3 : ResetEnv :=
  { present := true, cor0 := 0x41, ccsr0 := 0x1F, resetCcsr := 0x07
    busErr := fun k => if k = 3 then -5 else 0 }

/-- Configure environment in which every external step succeeds except the
radio-driver initialization. -/
def env_config_init_fail : ConfigEnv :=
  { entries := [(cfg_plain, dflt_none)], vcc := 5, ignore_cis_vcc := false
    request_io := rio_ok, request_irq := 0, ioport_map_ok := true
    request_configuration := 0, reset_env := env_reset_ok
    orinoco_init := -5, orinoco_if_add := 0 }

/-- Configure environment in which every external step succeeds except that
the first register access of the hardware reset fails. -/
def env_config_reset_fail : ConfigEnv :=
  { entries := [(cfg_plain, dflt_none)], vcc := 5, ignore_cis_vcc := false
    request_io := rio_ok, request_irq := 0, ioport_map_ok := true
    request_configuration := 0, reset_env := env_fail1
    orinoco_init := 0, orinoco_if_add := 0 }

/-! ## Bit-level helper lemmas -/

theorem spectrum_lor_land_self (x y : Nat) : (x ||| y) &&& y = y := by
  apply Nat.eq_of_testBit_eq
  intro i
  simp only [Nat.testBit_land, Nat.testBit_lor]
  cases y.testBit i <;> simp

theorem spectrum_mask_kills_reset_bit (x : Nat) :
    (x &&& UINT_NOT_COR_SOFT_RESET) &&& COR_SOFT_RESET = 0 := by
  have h1 : UINT_NOT_COR_SOFT_RESET &&& COR_SOFT_RESET = 0 := by decide
  rw [Nat.land_assoc, h1]
  simp

theorem spectrum_set_reset_bit (x : Nat) :
    (x ||| COR_SOFT_RESET) &&& COR_SOFT_RESET ≠ 0 := by
  rw [spectrum_lor_land_self]
  decide

/-! ## Reset sequencer theorems -/

/-- Claim C1: every successful `spectrum_reset` invocation with `idle` set
writes to CCSR exactly the idle encoding ORed with the memory-width bit of
the CCSR value read after the soft-reset write (step 3), so the firmware-run
bits equal the idle encoding and the preserved memory-width bit is the one
observed after the soft-reset pulse. -/
theorem spectrum_reset_idle_ccsr (env : ResetEnv)
    (h : (spectrum_reset env true).ret = 0) :
    (spectrum_reset env true).regs.ccsr =
      HCR_IDLE ||| (env.resetCcsr &&& HCR_MEM16) := by
  simp only [spectrum_reset] at h ⊢
  split_ifs at h ⊢ with h0 h1 h2 h3 h4 h5
  all_goals simp_all [ENODEV, writeCORfx, spectrum_set_reset_bit,
    spectrum_mask_kills_reset_bit]

theorem spectrum_reset_idle_ccsr_witness :
    (spectrum_reset env_reset_ok true).ret = 0 ∧
    ((spectrum_reset env_reset_ok true).regs.ccsr =
      HCR_IDLE ||| (env_reset_ok.resetCcsr &&& HCR_MEM16)) ∧
    (spectrum_reset env_reset_ok true).regs.ccsr ≠
      HCR_IDLE ||| (env_reset_ok.ccsr0 &&& HCR_MEM16) :=
  ⟨by decide, spectrum_reset_idle_ccsr env_reset_ok (by decide), by decide⟩

/-- Claim C2: every successful `spectrum_reset` invocation finally writes to
COR the value read at step 1 with the soft-reset bit cleared; every other bit
of the saved value is restored exactly. -/
theorem spectrum_reset_cor_restore (env : ResetEnv) (idle : Bool)
    (h : (spectrum_reset env idle).ret = 0) (hw : env.cor0 < 2 ^ 32) :
    (spectrum_reset env idle).regs.cor = env.cor0 &&& UINT_NOT_COR_SOFT_RESET ∧
    ((spectrum_reset env idle).regs.cor).testBit 7 = false ∧
    ∀ i, i ≠ 7 →
      ((spectrum_reset env idle).regs.cor).testBit i = env.cor0.testBit i := by
  have hcor : (spectrum_reset env idle).regs.cor =
      env.cor0 &&& UINT_NOT_COR_SOFT_RESET := by
    simp only [spectrum_reset] at h ⊢
    split_ifs at h ⊢ with h0 h1 h2 h3 h4 h5
    all_goals simp_all [ENODEV, writeCORfx]
  have hmaskbit : ∀ i, i ≠ 7 →
      UINT_NOT_COR_SOFT_RESET.testBit i = decide (i < 32) := by
    intro i hi
    have hx : UINT_NOT_COR_SOFT_RESET = (2 ^ 32 - 1) ^^^ 2 ^ 7 := by decide
    rw [hx, Nat.testBit_xor, Nat.testBit_two_pow_sub_one,
        Nat.testBit_two_pow_of_ne (Ne.symm hi)]
    cases decide (i < 32) <;> rfl
  refine ⟨hcor, ?_, ?_⟩
  · rw [hcor, Nat.testBit_land]
    have : UINT_NOT_COR_SOFT_RESET.testBit 7 = false := by decide
    simp [this]
  · intro i hi
    rw [hcor, Nat.testBit_land, hmaskbit i hi]
    by_cases h32 : i < 32
    · simp [h32]
    · have hle : 2 ^ 32 ≤ 2 ^ i := Nat.pow_le_pow_right (by norm_num) (by omega)
      have : env.cor0.testBit i = false :=
        Nat.testBit_lt_two_pow (lt_of_lt_of_le hw hle)
      simp [h32, this]

theorem spectrum_reset_cor_restore_witness :
    (spectrum_reset env_reset_cor false).ret = 0 ∧ env_reset_cor.cor0 < 2 ^ 32 ∧
    ((spectrum_reset env_reset_cor false).regs.cor =
        env_reset_cor.cor0 &&& UINT_NOT_COR_SOFT_RESET ∧
      ((spectrum_reset env_reset_cor false).regs.cor).testBit 7 = false ∧
      ∀ i, i ≠ 7 →
        ((spectrum_reset env_reset_cor false).regs.cor).testBit i =
          env_reset_cor.cor0.testBit i) :=
  ⟨by decide, by decide,
    spectrum_reset_cor_restore env_reset_cor false (by decide) (by decide)⟩

/-- Claim C3: `spectrum_reset` on a device handle whose presence check
reports absent fails immediately with `-ENODEV`, performs no
configuration-register access at all, and leaves the registers untouched. -/
theorem spectrum_reset_absent (env : ResetEnv) (idle : Bool)
    (h : env.present = false) :
    (spectrum_reset env idle).ret = -ENODEV ∧
    (spectrum_reset env idle).accesses = [] ∧
    (spectrum_reset env idle).regs = { cor := env.cor0, ccsr := env.ccsr0 } := by
  simp [spectrum_reset, h]

theorem spectrum_reset_absent_witness :
    env_absent.present = false ∧
    ((spectrum_reset env_absent false).ret = -ENODEV ∧
      (spectrum_reset env_absent false).accesses = [] ∧
      (spectrum_reset env_absent false).regs =
        { cor := env_absent.cor0, ccsr := env_absent.ccsr0 }) :=
  ⟨rfl, spectrum_reset_absent env_absent false rfl⟩

/-- Claim C9 (amended): on a present device, a failing register access at
step k (the earlier accesses succeeding) aborts `spectrum_reset` at that step
— exactly k accesses are attempted, so no later access and no rollback write
occurs — the function returns `-ENODEV`, and `cs_error` is invoked with the
function code `AccessConfigurationRegister` and the bus status; the surfaced
error does not name the step. -/
theorem spectrum_reset_step_abort (env : ResetEnv) (idle : Bool) (k : Nat)
    (hp : env.present = true) (hk1 : 1 ≤ k) (hk5 : k ≤ 5)
    (hfail : env.busErr k ≠ 0)
    (hbefore : ∀ j, 1 ≤ j → j < k → env.busErr j = 0) :
    (spectrum_reset env idle).ret = -ENODEV ∧
    (spectrum_reset env idle).accesses.length = k ∧
    (spectrum_reset env idle).csErr =
      some (AccessConfigurationRegister, env.busErr k) := by
  interval_cases k
  · simp [spectrum_reset, hp, hfail]
  · have e1 := hbefore 1 (by omega) (by omega)
    simp [spectrum_reset, hp, e1, hfail]
  · have e1 := hbefore 1 (by omega) (by omega)
    have e2 := hbefore 2 (by omega) (by omega)
    simp [spectrum_reset, hp, e1, e2, hfail]
  · have e1 := hbefore 1 (by omega) (by omega)
    have e2 := hbefore 2 (by omega) (by omega)
    have e3 := hbefore 3 (by omega) (by omega)
    simp [spectrum_reset, hp, e1, e2, e3, hfail]
  · have e1 := hbefore 1 (by omega) (by omega)
    have e2 := hbefore 2 (by omega) (by omega)
    have e3 := hbefore 3 (by omega) (by omega)
    have e4 := hbefore 4 (by omega) (by omega)
    simp [spectrum_reset, hp, e1, e2, e3, e4, hfail]

theorem spectrum_reset_step_abort_witness :
    env_fail3.present = true ∧ env_fail3.busErr 3 ≠ 0 ∧
    ((spectrum_reset env_fail3 true).ret = -ENODEV ∧
      (spectrum_reset env_fail3 true).accesses.length = 3 ∧
      (spectrum_reset env_fail3 true).csErr =
        some (AccessConfigurationRegister, env_fail3.busErr 3)) :=
  ⟨rfl, by decide,
    spectrum_reset_step_abort env_fail3 true 3 rfl (by omega) (by omega) (by decide)
      (by
        intro j hj1 hj2
        have hne : j ≠ 3 := by omega
        simp [env_fail3, hne])⟩

/-- Claim C9 counterexample: failures at two different steps (and for
comparison an absent device) surface identical errors — the same `-ENODEV`
return and the same `cs_error` arguments — so the surfaced error does not
identify the failing step, and the return value does not distinguish a
register-access failure from `DeviceAbsent`; the two runs did abort at
different steps (1 versus 2 attempted accesses). -/
theorem spectrum_reset_error_indistinct :
    (spectrum_reset env_fail1 true).accesses.length = 1 ∧
    (spectrum_reset env_fail2 true).accesses.length = 2 ∧
    (spectrum_reset env_fail1 true).ret = (spectrum_reset env_fail2 true).ret ∧
    (spectrum_reset env_fail1 true).csErr = (spectrum_reset env_fail2 true).csErr ∧
    (spectrum_reset env_fail1 true).ret = (spectrum_reset env_absent true).ret := by
  decide

/-! ## CIS scanner theorems -/

/-- Claim C4: the scanner compares the nominal voltage declared by the entry
(scaled down by 10000) against the requested voltage, falling back to the
voltage declared by the default entry when the candidate declares none; when neither
declares one the voltage check passes; a mismatch rejects the entry unless
`ignore_cis_vcc` is set, in which case the entry proceeds to the remaining
checks (and can be selected). -/
theorem spectrum_cs_vcc_policy
    (ignore : Bool) (rio : pcmcia_io_req → Int) (vcc : Nat)
    (cfg dflt : cistpl_cftable_entry_t) (p : pcmcia_device_t)
    (hidx : cfg.index ≠ 0) :
    (((cfg.vcc.present &&& (1 <<< CISTPL_POWER_VNOM)) ≠ 0 ∧
        vcc ≠ cfg.vcc.param CISTPL_POWER_VNOM / 10000 ∧ ignore = false) →
      spectrum_cs_config_check ignore rio vcc cfg dflt p =
        (-ENODEV, pcmcia_disable_device p)) ∧
    (((cfg.vcc.present &&& (1 <<< CISTPL_POWER_VNOM)) = 0 ∧
        (dflt.vcc.present &&& (1 <<< CISTPL_POWER_VNOM)) ≠ 0 ∧
        vcc ≠ dflt.vcc.param CISTPL_POWER_VNOM / 10000 ∧ ignore = false) →
      spectrum_cs_config_check ignore rio vcc cfg dflt p =
        (-ENODEV, pcmcia_disable_device p)) ∧
    (((cfg.vcc.present &&& (1 <<< CISTPL_POWER_VNOM)) = 0 ∧
        (dflt.vcc.present &&& (1 <<< CISTPL_POWER_VNOM)) = 0) →
      spectrum_cs_config_check ignore rio vcc cfg dflt p =
        spectrum_cs_config_check_rest rio cfg dflt p) ∧
    (ignore = true →
      spectrum_cs_config_check ignore rio vcc cfg dflt p =
        spectrum_cs_config_check_rest rio cfg dflt p) := by
  refine ⟨?_, ?_, ?_, ?_⟩
  · rintro ⟨h1, h2, h3⟩
    subst h3
    simp [spectrum_cs_config_check, vcc_mismatch_reject, hidx, h1, h2]
  · rintro ⟨h1, h2, h3, h4⟩
    subst h4
    simp [spectrum_cs_config_check, vcc_mismatch_reject, hidx, h1, h2, h3]
  · rintro ⟨h1, h2⟩
    simp [spectrum_cs_config_check, vcc_mismatch_reject, hidx, h1, h2]
  · intro h
    subst h
    have hreject : vcc_mismatch_reject true vcc cfg dflt = false := by
      simp [vcc_mismatch_reject]
    simp [spectrum_cs_config_check, hidx, hreject]

theorem spectrum_cs_vcc_policy_witness :
    spectrum_cs_config_check false rio_ok 5 cfg_vcc33 dflt_none pdev_init =
      (-ENODEV, pcmcia_disable_device pdev_init) ∧
    spectrum_cs_config_check true rio_ok 5 cfg_vcc33 dflt_none pdev_init =
      spectrum_cs_config_check_rest rio_ok cfg_vcc33 dflt_none pdev_init ∧
    (spectrum_cs_config_check true rio_ok 5 cfg_vcc33 dflt_none pdev_init).1 = 0 :=
  ⟨(spectrum_cs_vcc_policy false rio_ok 5 cfg_vcc33 dflt_none pdev_init (by decide)).1
      ⟨by decide, by decide, rfl⟩,
   (spectrum_cs_vcc_policy true rio_ok 5 cfg_vcc33 dflt_none pdev_init (by decide)).2.2.2
      rfl,
   by decide⟩

/-- Claim C5 counterexample: an entry whose chosen window declares neither
the 8-bit nor the 16-bit capability flag is given the forced 8-bit width,
not auto-detection as the claim states. -/
theorem spectrum_cs_io_width_counterexample :
    cfg_no_width_flags.io.flags &&& CISTPL_IO_8BIT = 0 ∧
    cfg_no_width_flags.io.flags &&& CISTPL_IO_16BIT = 0 ∧
    (spectrum_cs_config_check false rio_ok 5 cfg_no_width_flags dflt_none pdev_init).1 = 0 ∧
    (spectrum_cs_config_check false rio_ok 5
        cfg_no_width_flags dflt_none pdev_init).2.io.Attributes1 =
      IO_DATA_PATH_WIDTH_8 ∧
    IO_DATA_PATH_WIDTH_8 ≠ IO_DATA_PATH_WIDTH_AUTO := by
  decide

/-- Claim C5 (amended): for every candidate entry with at least one I/O
window (in the entry or, when the entry declares none, in the default
entry), the bit-width attribute of the chosen window descriptor is: forced
8-bit whenever the 16-bit flag is absent (including when both flags are
absent), forced 16-bit when the 16-bit flag is present but the 8-bit flag is
absent, and auto-detection when both flags are present; base and length are
copied for window 1, and for window 2 (together with the width attribute)
only when a second window is declared. -/
theorem spectrum_cs_io_window_policy (rio : pcmcia_io_req → Int)
    (cfg dflt : cistpl_cftable_entry_t) (p : pcmcia_device_t)
    (hwin : cfg.io.nwin > 0 ∨ dflt.io.nwin > 0) :
    ((spectrum_cs_config_check_rest rio cfg dflt p).2.io.Attributes1 =
      (if (chosen_io cfg dflt).flags &&& CISTPL_IO_16BIT = 0 then IO_DATA_PATH_WIDTH_8
       else if (chosen_io cfg dflt).flags &&& CISTPL_IO_8BIT = 0 then IO_DATA_PATH_WIDTH_16
       else IO_DATA_PATH_WIDTH_AUTO)) ∧
    (spectrum_cs_config_check_rest rio cfg dflt p).2.io.BasePort1 =
      ((chosen_io cfg dflt).win 0).base ∧
    (spectrum_cs_config_check_rest rio cfg dflt p).2.io.NumPorts1 =
      ((chosen_io cfg dflt).win 0).len ∧
    ((chosen_io cfg dflt).nwin > 1 →
      (spectrum_cs_config_check_rest rio cfg dflt p).2.io.BasePort2 =
        ((chosen_io cfg dflt).win 1).base ∧
      (spectrum_cs_config_check_rest rio cfg dflt p).2.io.NumPorts2 =
        ((chosen_io cfg dflt).win 1).len ∧
      (spectrum_cs_config_check_rest rio cfg dflt p).2.io.Attributes2 =
        (spectrum_cs_config_check_rest rio cfg dflt p).2.io.Attributes1) ∧
    (¬ (chosen_io cfg dflt).nwin > 1 →
      (spectrum_cs_config_check_rest rio cfg dflt p).2.io.NumPorts2 = 0 ∧
      (spectrum_cs_config_check_rest rio cfg dflt p).2.io.Attributes2 =
        p.io.Attributes2) := by
  simp only [spectrum_cs_config_check_rest, if_pos hwin]
  split_ifs <;> simp_all [pcmcia_disable_device]

theorem spectrum_cs_io_window_policy_witness :
    (cfg_16bit_two_win.io.nwin > 0 ∨ dflt_none.io.nwin > 0) ∧
    (((spectrum_cs_config_check_rest rio_ok cfg_16bit_two_win dflt_none pdev_init).2.io.Attributes1 =
        (if (chosen_io cfg_16bit_two_win dflt_none).flags &&& CISTPL_IO_16BIT = 0 then
          IO_DATA_PATH_WIDTH_8
         else if (chosen_io cfg_16bit_two_win dflt_none).flags &&& CISTPL_IO_8BIT = 0 then
          IO_DATA_PATH_WIDTH_16
         else IO_DATA_PATH_WIDTH_AUTO)) ∧
      (spectrum_cs_config_check_rest rio_ok cfg_16bit_two_win dflt_none pdev_init).2.io.BasePort1 =
        ((chosen_io cfg_16bit_two_win dflt_none).win 0).base ∧
      (spectrum_cs_config_check_rest rio_ok cfg_16bit_two_win dflt_none pdev_init).2.io.NumPorts1 =
        ((chosen_io cfg_16bit_two_win dflt_none).win 0).len ∧
      ((chosen_io cfg_16bit_two_win dflt_none).nwin > 1 →
        (spectrum_cs_config_check_rest rio_ok cfg_16bit_two_win dflt_none pdev_init).2.io.BasePort2 =
          ((chosen_io cfg_16bit_two_win dflt_none).win 1).base ∧
        (spectrum_cs_config_check_rest rio_ok cfg_16bit_two_win dflt_none pdev_init).2.io.NumPorts2 =
          ((chosen_io cfg_16bit_two_win dflt_none).win 1).len ∧
        (spectrum_cs_config_check_rest rio_ok cfg_16bit_two_win dflt_none pdev_init).2.io.Attributes2 =
          (spectrum_cs_config_check_rest rio_ok cfg_16bit_two_win dflt_none pdev_init).2.io.Attributes1) ∧
      (¬ (chosen_io cfg_16bit_two_win dflt_none).nwin > 1 →
        (spectrum_cs_config_check_rest rio_ok cfg_16bit_two_win dflt_none pdev_init).2.io.NumPorts2 = 0 ∧
        (spectrum_cs_config_check_rest rio_ok cfg_16bit_two_win dflt_none pdev_init).2.io.Attributes2 =
          pdev_init.io.Attributes2)) :=
  ⟨Or.inl (by decide),
   spectrum_cs_io_window_policy rio_ok cfg_16bit_two_win dflt_none pdev_init (Or.inl (by decide))⟩

/-- Claim C6: an entry whose index is 0 is always rejected by
`spectrum_cs_config_check` regardless of its other fields, and no scan ever
selects an index-0 entry as the resolved configuration. -/
theorem spectrum_cs_index0_rejected :
    (∀ (ignore : Bool) (rio : pcmcia_io_req → Int) (vcc : Nat)
        (cfg dflt : cistpl_cftable_entry_t) (p : pcmcia_device_t),
      cfg.index = 0 →
      spectrum_cs_config_check ignore rio vcc cfg dflt p =
        (-ENODEV, pcmcia_disable_device p)) ∧
    (∀ (ignore : Bool) (rio : pcmcia_io_req → Int) (vcc : Nat)
        (entries : List (cistpl_cftable_entry_t × cistpl_cftable_entry_t))
        (p : pcmcia_device_t) (cfg : cistpl_cftable_entry_t),
      (pcmcia_loop_config ignore rio vcc entries p).2.2 = some cfg →
      cfg.index ≠ 0) := by
  constructor
  · intro ignore rio vcc cfg dflt p h
    simp [spectrum_cs_config_check, h]
  · intro ignore rio vcc entries
    induction entries with
    | nil =>
      intro p cfg h
      simp [pcmcia_loop_config] at h
    | cons e rest ih =>
      intro p cfg h
      obtain ⟨c, d⟩ := e
      simp only [pcmcia_loop_config] at h
      by_cases hc : (spectrum_cs_config_check ignore rio vcc c d p).1 = 0
      · rw [if_pos hc] at h
        simp only [Option.some.injEq] at h
        subst h
        intro hidx0
        rw [spectrum_cs_config_check] at hc
        simp [hidx0, ENODEV] at hc
      · rw [if_neg hc] at h
        exact ih _ _ h

theorem spectrum_cs_index0_rejected_witness :
    (spectrum_cs_config_check false rio_ok 5 cfg_idx0 dflt_none pdev_init =
      (-ENODEV, pcmcia_disable_device pdev_init)) ∧
    (pcmcia_loop_config false rio_ok 5
        [(cfg_idx0, dflt_none), (cfg_plain, dflt_none)] pdev_init).2.2 =
      some cfg_plain ∧
    cfg_plain.index ≠ 0 :=
  ⟨spectrum_cs_index0_rejected.1 false rio_ok 5 cfg_idx0 dflt_none pdev_init rfl,
   rfl,
   spectrum_cs_index0_rejected.2 false rio_ok 5
     [(cfg_idx0, dflt_none), (cfg_plain, dflt_none)] pdev_init cfg_plain rfl⟩

theorem config_check_rest_vpp (rio : pcmcia_io_req → Int)
    (cfg dflt : cistpl_cftable_entry_t) (p : pcmcia_device_t)
    (h : (cfg.vpp1.present &&& (1 <<< CISTPL_POWER_VNOM)) ≠ 0) :
    (spectrum_cs_config_check_rest rio cfg dflt p).2.conf.Vpp =
      cfg.vpp1.param CISTPL_POWER_VNOM / 10000 := by
  simp only [spectrum_cs_config_check_rest]
  split_ifs <;> simp_all [pcmcia_disable_device]

theorem config_check_rest_vpp_preserved (rio : pcmcia_io_req → Int)
    (cfg dflt : cistpl_cftable_entry_t) (p : pcmcia_device_t)
    (h1 : (cfg.vpp1.present &&& (1 <<< CISTPL_POWER_VNOM)) = 0)
    (h2 : (dflt.vpp1.present &&& (1 <<< CISTPL_POWER_VNOM)) = 0) :
    (spectrum_cs_config_check_rest rio cfg dflt p).2.conf.Vpp =
      p.conf.Vpp := by
  simp only [spectrum_cs_config_check_rest]
  split_ifs <;> simp_all [pcmcia_disable_device]

theorem config_check_vpp_preserved (ignore : Bool) (rio : pcmcia_io_req → Int)
    (vcc : Nat) (cfg dflt : cistpl_cftable_entry_t) (p : pcmcia_device_t)
    (h1 : (cfg.vpp1.present &&& (1 <<< CISTPL_POWER_VNOM)) = 0)
    (h2 : (dflt.vpp1.present &&& (1 <<< CISTPL_POWER_VNOM)) = 0) :
    (spectrum_cs_config_check ignore rio vcc cfg dflt p).2.conf.Vpp =
      p.conf.Vpp := by
  simp only [spectrum_cs_config_check]
  split_ifs <;>
    simp [pcmcia_disable_device, config_check_rest_vpp_preserved rio cfg dflt p h1 h2]

/-- Claim C10: the writes a candidate entry makes to the shared device state
before all its checks complete — here the Vpp value — persist when the entry
is later rejected (for example by a failing I/O reservation), so a
subsequently accepted entry that declares no Vpp of its own (nor its default)
inherits the Vpp written while processing the earlier, rejected entry. -/
theorem spectrum_cs_vpp_inheritance
    (ignore : Bool) (rio : pcmcia_io_req → Int) (vcc : Nat)
    (e1 d1 e2 d2 : cistpl_cftable_entry_t) (p : pcmcia_device_t)
    (h1idx : e1.index ≠ 0)
    (h1vcc : vcc_mismatch_reject ignore vcc e1 d1 = false)
    (h1vpp : (e1.vpp1.present &&& (1 <<< CISTPL_POWER_VNOM)) ≠ 0)
    (h1rej : (spectrum_cs_config_check ignore rio vcc e1 d1 p).1 ≠ 0)
    (h2vpp1 : (e2.vpp1.present &&& (1 <<< CISTPL_POWER_VNOM)) = 0)
    (h2vpp2 : (d2.vpp1.present &&& (1 <<< CISTPL_POWER_VNOM)) = 0)
    (h2acc : (spectrum_cs_config_check ignore rio vcc e2 d2
        (spectrum_cs_config_check ignore rio vcc e1 d1 p).2).1 = 0) :
    (spectrum_cs_config_check ignore rio vcc e1 d1 p).2.conf.Vpp =
      e1.vpp1.param CISTPL_POWER_VNOM / 10000 ∧
    (pcmcia_loop_config ignore rio vcc [(e1, d1), (e2, d2)] p).1 = 0 ∧
    (pcmcia_loop_config ignore rio vcc [(e1, d1), (e2, d2)] p).2.2 = some e2 ∧
    (pcmcia_loop_config ignore rio vcc [(e1, d1), (e2, d2)] p).2.1.conf.Vpp =
      e1.vpp1.param CISTPL_POWER_VNOM / 10000 := by
  have hsplit : spectrum_cs_config_check ignore rio vcc e1 d1 p =
      spectrum_cs_config_check_rest rio e1 d1 p := by
    simp [spectrum_cs_config_check, h1idx, h1vcc]
  have hstate : (spectrum_cs_config_check ignore rio vcc e1 d1 p).2.conf.Vpp =
      e1.vpp1.param CISTPL_POWER_VNOM / 10000 := by
    rw [hsplit]
    exact config_check_rest_vpp rio e1 d1 p h1vpp
  have hloop : pcmcia_loop_config ignore rio vcc [(e1, d1), (e2, d2)] p =
      (0, (spectrum_cs_config_check ignore rio vcc e2 d2
            (spectrum_cs_config_check ignore rio vcc e1 d1 p).2).2, some e2) := by
    simp only [pcmcia_loop_config]
    rw [if_neg h1rej, if_pos h2acc]
  refine ⟨hstate, ?_, ?_, ?_⟩
  · rw [hloop]
  · rw [hloop]
  · rw [hloop]
    show (spectrum_cs_config_check ignore rio vcc e2 d2
        (spectrum_cs_config_check ignore rio vcc e1 d1 p).2).2.conf.Vpp = _
    rw [config_check_vpp_preserved ignore rio vcc e2 d2 _ h2vpp1 h2vpp2, hstate]

theorem spectrum_cs_vpp_inheritance_witness :
    ((spectrum_cs_config_check false rio_fail300 5 e1_vpp dflt_none pdev_init).2.conf.Vpp =
        e1_vpp.vpp1.param CISTPL_POWER_VNOM / 10000 ∧
      (pcmcia_loop_config false rio_fail300 5
          [(e1_vpp, dflt_none), (e2_novpp, dflt_none)] pdev_init).1 = 0 ∧
      (pcmcia_loop_config false rio_fail300 5
          [(e1_vpp, dflt_none), (e2_novpp, dflt_none)] pdev_init).2.2 = some e2_novpp ∧
      (pcmcia_loop_config false rio_fail300 5
          [(e1_vpp, dflt_none), (e2_novpp, dflt_none)] pdev_init).2.1.conf.Vpp =
        e1_vpp.vpp1.param CISTPL_POWER_VNOM / 10000) ∧
    e1_vpp.vpp1.param CISTPL_POWER_VNOM / 10000 = 5 ∧
    (e2_novpp.vpp1.present &&& (1 <<< CISTPL_POWER_VNOM)) = 0 :=
  ⟨spectrum_cs_vpp_inheritance false rio_fail300 5 e1_vpp dflt_none e2_novpp dflt_none
      pdev_init (by decide) (by decide) (by decide) (by decide) (by decide) (by decide)
      (by decide),
   by decide, by decide⟩

/-! ## Configure and release theorems -/

/-- Claim C7 (amended): a failure at the CIS scan, IRQ request,
register-window mapping, socket configuration request, radio-driver
initialization or interface registration makes `spectrum_cs_config` run the
release path and report `-ENODEV` with no interface registered; the
hardware-reset step cannot trigger this path because
`spectrum_cs_hard_reset` discards the result of `spectrum_reset` and returns
0 unconditionally. -/
theorem spectrum_cs_config_failure_release (env : ConfigEnv) (p0 : pcmcia_device_t)
    (h : (pcmcia_loop_config env.ignore_cis_vcc env.request_io env.vcc
            env.entries p0).1 ≠ 0 ∨
         env.request_irq ≠ 0 ∨ env.ioport_map_ok = false ∨
         env.request_configuration ≠ 0 ∨ env.orinoco_init ≠ 0 ∨
         env.orinoco_if_add ≠ 0) :
    (spectrum_cs_config env p0).ret = -ENODEV ∧
    (spectrum_cs_config env p0).release_called = true ∧
    (spectrum_cs_config env p0).dev_node_set = false := by
  simp only [spectrum_cs_config]
  split_ifs with h1 h2 h3 h4 h5 h6 h7
  all_goals first
    | exact ⟨rfl, rfl, rfl⟩
    | (rcases h with h | h | h | h | h | h <;> simp_all)

theorem spectrum_cs_config_failure_release_witness :
    (spectrum_cs_config env_config_init_fail pdev_init).ret = -ENODEV ∧
    (spectrum_cs_config env_config_init_fail pdev_init).release_called = true ∧
    (spectrum_cs_config env_config_init_fail pdev_init).dev_node_set = false :=
  spectrum_cs_config_failure_release env_config_init_fail pdev_init
    (Or.inr (Or.inr (Or.inr (Or.inr (Or.inl (by decide))))))

/-- Claim C7 counterexample: in an environment where the hardware reset
fails (its first register access reports a bus error, so `spectrum_reset`
returns `-ENODEV`) but every other external step succeeds,
`spectrum_cs_config` nevertheless succeeds, does not run the release path,
and registers the interface — a failing hardware reset does not cause
configure to fail. -/
theorem spectrum_cs_config_reset_swallowed :
    (spectrum_reset env_config_reset_fail.reset_env false).ret ≠ 0 ∧
    (spectrum_cs_config env_config_reset_fail pdev_init).ret = 0 ∧
    (spectrum_cs_config env_config_reset_fail pdev_init).release_called = false ∧
    (spectrum_cs_config env_config_reset_fail pdev_init).dev_node_set = true := by
  decide

/-- Claim C8 counterexample: invoking `spectrum_cs_release` twice on an
attachment with a mapped register window does not produce the end state of a
single invocation: the second call increments the hardware-unavailable
counter again and unmaps the still-recorded window a second time. -/
theorem spectrum_cs_release_not_idempotent :
    spectrum_cs_release (spectrum_cs_release rs0) ≠ spectrum_cs_release rs0 ∧
    (spectrum_cs_release rs0).unmap_calls = 1 ∧
    (spectrum_cs_release (spectrum_cs_release rs0)).unmap_calls = 2 ∧
    (spectrum_cs_release rs0).hw_unavailable = 1 ∧
    (spectrum_cs_release (spectrum_cs_release rs0)).hw_unavailable = 2 := by
  decide

/-- Claim C8 (amended): a second `spectrum_cs_release` is not a no-op: it
increments the hardware-unavailable counter once more and, because the
window pointer is never cleared, issues one more unmap of the same window
whenever the window was mapped; release itself frees no memory (freeing
happens only in detach), so no double free is possible. -/
theorem spectrum_cs_release_twice (s : ReleaseState) :
    spectrum_cs_release (spectrum_cs_release s) =
      { hw_unavailable := s.hw_unavailable + 2
        iobase := s.iobase
        disable_calls := s.disable_calls + 2
        unmap_calls := s.unmap_calls + (if s.iobase ≠ 0 then 2 else 0) } := by
  by_cases h : s.iobase = 0 <;> simp [spectrum_cs_release, h]
